import Mathlib

/-!
Verification development for the achilles multi-service ledger.

The definitions below are a shallow embedding of the repository's
transaction and wallet core:

* the wallet model and `walletRepository` operations
  (`wallet/model/wallet.go`, `wallet/repository` in `src/unnamed/part_009`;
  the `walletService` layer in `src/internal/svc/wallet/service/svc.go` is a
  pass-through around the repository plus a Redis cache that does not affect
  the returned values, so the repository functions carry the semantics);
* the transaction model and the saga orchestrator
  (`TransactionServiceImpl.Deposit/Withdraw/Transfer` and
  `PostgresTransactionRepository` in
  `src/internal/svc/transaction/repository/rep.go`);
* the wallet gRPC client request construction
  (`GRPCWalletClient.UpdateBalance` in `src/unnamed/part_010`).

Monetary amounts and balances are embedded as exact integers (`Int`).  The
stores declare exact fixed-point DECIMAL columns and the Go code carries
values as float64; every verified claim involves only addition, subtraction
and order comparisons of amounts, which behave identically over any ordered
additive group, so exact integer units are a faithful embedding of the
arithmetic the claims mention.  Timestamps are embedded as `Nat` instants
supplied by the caller (the Go code calls `time.Now()`).  UUIDs generated by
`uuid.New()` are embedded as `Nat` identifiers supplied by the caller, fresh
per call.  Network calls to the wallet service and to the notification queue
can fail at the RPC layer; these extrinsic failures are modelled by boolean
fault flags in `FaultEnv`.  The free-form `details` JSON payload of
transaction events and the Redis cache are not modelled; no claim mentions
them.
-/

/-- Wallet row, embedding `model.Wallet` from `wallet/model/wallet.go`
(`src/unnamed/part_009`): id, user_id, balance, is_blocked, block_reason,
created_at, updated_at.  `blockReason = none` models the SQL NULL. -/
structure Wallet where
  id : String
  userId : String
  balance : Int
  isBlocked : Bool
  blockReason : Option String
  createdAt : Nat
  updatedAt : Nat
deriving DecidableEq, Repr

/-- Errors returned by the wallet repository (`src/unnamed/part_009`,
`ErrWalletNotFound` and `ErrInsufficientFunds`).  These are the only typed
errors the wallet repository defines; there is no blocked-wallet error. -/
inductive WalletErr where
  | walletNotFound
  | insufficientFunds
deriving DecidableEq, Repr

/-- Reply of a wallet repository call: the returned row or a typed error. -/
inductive WalletReply where
  | ok (w : Wallet)
  | err (e : WalletErr)
deriving DecidableEq, Repr

/-- Lookup of a wallet row by primary key, embedding
`SELECT ... FROM wallets WHERE id = $1`. -/
def findWallet (db : List Wallet) (id : String) : Option Wallet :=
  db.find? (fun w => w.id = id)

/-- Row update by primary key, embedding `UPDATE wallets ... WHERE id = $2`:
every row with the given id is replaced (id is the primary key, so at most
one row matches in a well-formed store). -/
def replaceWallet (db : List Wallet) (id : String) (w : Wallet) : List Wallet :=
  db.map (fun x => if x.id = id then w else x)

namespace WalletRepository

/-- Embeds `walletRepository.UpdateBalance` (`src/unnamed/part_009` lines
158-236): inside a DB transaction, `SELECT balance ... FOR UPDATE` (missing
row gives `ErrWalletNotFound`), compute `newBalance := currentBalance +
amount`, reject with `ErrInsufficientFunds` when `newBalance < 0`, otherwise
`UPDATE wallets SET balance = newBalance, updated_at = now` and return the
updated row.  On error the transaction is rolled back, so the store is
returned unchanged.  The function never reads `is_blocked`. -/
def updateBalance (db : List Wallet) (id : String) (amount : Int) (now : Nat) :
    WalletReply × List Wallet :=
  match findWallet db id with
  | none => (.err .walletNotFound, db)
  | some w =>
    if w.balance + amount < 0 then
      (.err .insufficientFunds, db)
    else
      (.ok { w with balance := w.balance + amount, updatedAt := now },
       replaceWallet db id { w with balance := w.balance + amount, updatedAt := now })

/-- Embeds `walletRepository.Block` (`src/unnamed/part_009` lines 260-299):
`UPDATE wallets SET is_blocked = true, block_reason = $1, updated_at = $2
WHERE id = $3 RETURNING ...`; a missing row gives `ErrWalletNotFound`. -/
def block (db : List Wallet) (id : String) (reason : String) (now : Nat) :
    WalletReply × List Wallet :=
  match findWallet db id with
  | none => (.err .walletNotFound, db)
  | some w =>
    (.ok { w with isBlocked := true, blockReason := some reason, updatedAt := now },
     replaceWallet db id { w with isBlocked := true, blockReason := some reason, updatedAt := now })

/-- Embeds `walletRepository.Unblock` (`src/unnamed/part_009` lines 302-340):
`UPDATE wallets SET is_blocked = false, block_reason = NULL, updated_at = $1
WHERE id = $2 RETURNING ...`; a missing row gives `ErrWalletNotFound`. -/
def unblock (db : List Wallet) (id : String) (now : Nat) :
    WalletReply × List Wallet :=
  match findWallet db id with
  | none => (.err .walletNotFound, db)
  | some w =>
    (.ok { w with isBlocked := false, blockReason := none, updatedAt := now },
     replaceWallet db id { w with isBlocked := false, blockReason := none, updatedAt := now })

end WalletRepository


/-- Transaction type, embedding `model.TransactionType` and its constants
`Deposit`, `Withdraw`, `Transfer` (rep.go model section). -/
inductive TransactionType where
  | deposit
  | withdraw
  | transfer
deriving DecidableEq, Repr

/-- Transaction status, embedding `model.TransactionStatus` and its constants
`Pending`, `Completed`, `Failed` (rep.go model section).  The service code
only ever writes `pending` (at creation) and `completed`; `failed` is
declared but never assigned on any path. -/
inductive TransactionStatus where
  | pending
  | completed
  | failed
deriving DecidableEq, Repr

/-- Event type, embedding the `model.EventType` constants (rep.go model
section): created, processing, completed, failed, notification_sent.
`processing`, `failed` and `notificationSent` are declared but never emitted
by any code path, and no compensation event types exist in the model. -/
inductive EventType where
  | created
  | processing
  | completed
  | failed
  | notificationSent
deriving DecidableEq, Repr

/-- Transaction row, embedding `model.Transaction` (rep.go): id,
transaction_type, source_wallet_id, destination_wallet_id, amount, status,
description, created_at, updated_at.  The Go struct has no idempotency-key
and no saga-state field, although the `transactions` schema
(`src/unnamed/part_016`) declares `idempotency_key` and `saga_state`
columns; `CreateTransaction` inserts only the nine fields listed here. -/
structure TxRow where
  id : Nat
  transactionType : TransactionType
  sourceWalletId : Option String
  destinationWalletId : Option String
  amount : Int
  status : TransactionStatus
  description : String
  createdAt : Nat
  updatedAt : Nat
deriving DecidableEq, Repr

/-- Transaction event row, embedding `model.TransactionEvent` (rep.go):
transaction_id, event_type, created_at.  The event's own uuid and the
free-form `details` map are opaque payloads no claim mentions and are not
modelled. -/
structure EventRow where
  transactionId : Nat
  eventType : EventType
  createdAt : Nat
deriving DecidableEq, Repr

/-- Embeds `model.NewTransaction` (rep.go): fresh id, the given legs,
`status = pending`, both timestamps set to the current instant. -/
def newTransaction (txId : Nat) (t : TransactionType) (src dst : Option String)
    (amount : Int) (description : String) (now : Nat) : TxRow :=
  { id := txId, transactionType := t, sourceWalletId := src,
    destinationWalletId := dst, amount := amount, status := .pending,
    description := description, createdAt := now, updatedAt := now }

/-- Typed errors of `TransactionServiceImpl` (rep.go):
`ErrInvalidAmount`, `ErrSameWallet`, `ErrWalletNotFound`,
`ErrInsufficientFunds`; `internal` stands for every wrapped
`fmt.Errorf(...)` error the service returns on a later step failure
(`ErrTransactionFailed` is declared but never returned by any path). -/
inductive TxErr where
  | invalidAmount
  | sameWallet
  | walletNotFound
  | insufficientFunds
  | internal
deriving DecidableEq, Repr

/-- Result of a saga call: the returned transaction or a typed error. -/
inductive TxResult where
  | ok (t : TxRow)
  | err (e : TxErr)
deriving DecidableEq, Repr

/-- Operation direction of the wallet client request
(`walletpb.BalanceUpdateRequest_CREDIT` / `_DEBIT` in `src/unnamed/part_010`). -/
inductive BalanceOp where
  | credit
  | debit
deriving DecidableEq, Repr

/-- Embeds the request built by `GRPCWalletClient.UpdateBalance`
(`src/unnamed/part_010` lines 173-195): the request carries exactly a wallet
id, an amount and a credit/debit operation — it has no transaction-id or
op-ref field. -/
structure BalanceUpdateRequest where
  walletId : String
  amount : Int
  operation : BalanceOp
deriving DecidableEq, Repr

/-- Request construction of `GRPCWalletClient.UpdateBalance`: the `isDebit`
flag selects DEBIT, otherwise CREDIT. -/
def mkBalanceUpdateRequest (walletID : String) (amount : Int) (isDebit : Bool) :
    BalanceUpdateRequest :=
  { walletId := walletID, amount := amount,
    operation := if isDebit then .debit else .credit }

/-- Extrinsic RPC/storage fault flags for one saga execution.  Each flag set
to `true` makes the corresponding network or database call fail at the
transport layer (a failed call has no effect on the callee's state); flags
for calls that an operation does not perform are ignored by it. -/
structure FaultEnv where
  failGetBalance1 : Bool
  failGetBalance2 : Bool
  failBeginTx : Bool
  failCreate : Bool
  failAddCreated : Bool
  failLeg1 : Bool
  failLeg2 : Bool
  failUpdateStatus : Bool
  failAddCompleted : Bool
  failCommit : Bool
  failNotify : Bool
  failNotify2 : Bool
deriving DecidableEq, Repr

/-- The all-healthy environment: no extrinsic failures. -/
def okEnv : FaultEnv :=
  { failGetBalance1 := false, failGetBalance2 := false, failBeginTx := false,
    failCreate := false, failAddCreated := false, failLeg1 := false,
    failLeg2 := false, failUpdateStatus := false, failAddCompleted := false,
    failCommit := false, failNotify := false, failNotify2 := false }

/-- Embeds `GRPCWalletClient.GetBalance` (`src/unnamed/part_010`): a
`GetWallet` RPC returning the wallet's balance; `none` when the RPC fails or
the wallet does not exist (the orchestrator maps any error of this call to
`ErrWalletNotFound`). -/
def clientGetBalance (fault : Bool) (db : List Wallet) (id : String) : Option Int :=
  if fault then none
  else
    match findWallet db id with
    | none => none
    | some w => some w.balance

/-- Embeds one wallet-leg call as the orchestrator sees it:
`GRPCWalletClient.UpdateBalance` carries the request to the wallet service,
whose handler applies `walletRepository.UpdateBalance` with the signed
amount (negated for a debit).  `none` when the RPC faults or the wallet
service returns an error; `some db2` is the wallet store after a successful
mutation. -/
def clientUpdateBalance (fault : Bool) (db : List Wallet) (walletID : String)
    (amount : Int) (isDebit : Bool) (now : Nat) : Option (List Wallet) :=
  if fault then none
  else
    match WalletRepository.updateBalance db walletID (if isDebit then -amount else amount) now with
    | (.ok _, db2) => some db2
    | (.err _, _) => none

/-- Global state visible across saga executions: the wallet service's store
and the transaction service's committed `transactions` and
`transaction_events` tables.  Rows written inside an uncommitted DB
transaction are not part of the state; a rollback discards them. -/
structure SysState where
  wallets : List Wallet
  transactions : List TxRow
  events : List EventRow
deriving DecidableEq, Repr

/-- Outcome of one saga execution: the value returned to the caller, the
resulting global state, the `BalanceUpdateRequest`s issued to the wallet
service in order, whether a notification publish was attempted (the
goroutine after commit), and whether every attempted publish succeeded. -/
structure SagaResult where
  result : TxResult
  state : SysState
  walletCalls : List BalanceUpdateRequest
  notifyAttempted : Bool
  notifyDelivered : Bool
deriving DecidableEq, Repr

namespace TransactionService

/-- Outcome of the synchronous part of a saga execution (validation through
commit): the value returned to the caller, the resulting global state, the
wallet-service requests issued in order, and whether the local database
transaction committed. -/
structure SagaExec where
  result : TxResult
  state : SysState
  walletCalls : List BalanceUpdateRequest
  committed : Bool
deriving DecidableEq, Repr

/-- Embeds the synchronous body of `TransactionServiceImpl.Deposit`
(rep.go lines 575-667), everything before the notification goroutine.
Control flow, in source order: reject `amount <= 0` with `ErrInvalidAmount`;
`GetBalance` on the wallet (any error maps to `ErrWalletNotFound`);
`BeginTx`; `CreateTransaction` of a pending deposit row (no source wallet);
`AddTransactionEvent(created)`; `walletSvc.UpdateBalance(walletID, amount,
isDebit=false)`; `UpdateTransactionStatus(completed)`;
`AddTransactionEvent(completed)` whose failure is logged and ignored;
`CommitTx`.  Every failing DB step rolls the local transaction back
(discarding pending rows) and returns a wrapped internal error; a wallet
mutation that already happened is never undone.  There is no
idempotency-key parameter and no idempotency lookup. -/
def depositExec (fG fB fC fA fL fU fE fM : Bool) (st : SysState)
    (walletID : String) (amount : Int) (description : String)
    (txId : Nat) (now : Nat) : SagaExec :=
  if amount ≤ 0 then
    { result := .err .invalidAmount, state := st, walletCalls := [], committed := false }
  else
    match clientGetBalance fG st.wallets walletID with
    | none =>
      { result := .err .walletNotFound, state := st, walletCalls := [], committed := false }
    | some _ =>
      if fB then
        { result := .err .internal, state := st, walletCalls := [], committed := false }
      else if fC then
        { result := .err .internal, state := st, walletCalls := [], committed := false }
      else if fA then
        { result := .err .internal, state := st, walletCalls := [], committed := false }
      else
        match clientUpdateBalance fL st.wallets walletID amount false now with
        | none =>
          { result := .err .internal, state := st,
            walletCalls := [mkBalanceUpdateRequest walletID amount false], committed := false }
        | some wallets2 =>
          if fU then
            { result := .err .internal, state := { st with wallets := wallets2 },
              walletCalls := [mkBalanceUpdateRequest walletID amount false], committed := false }
          else if fM then
            { result := .err .internal, state := { st with wallets := wallets2 },
              walletCalls := [mkBalanceUpdateRequest walletID amount false], committed := false }
          else
            { result := .ok { newTransaction txId .deposit none (some walletID) amount description now with
                              status := .completed },
              state :=
                { wallets := wallets2,
                  transactions := st.transactions ++
                    [{ newTransaction txId .deposit none (some walletID) amount description now with
                       status := .completed }],
                  events := st.events ++
                    ([{ transactionId := txId, eventType := .created, createdAt := now }] ++
                     (if fE then []
                      else [{ transactionId := txId, eventType := .completed, createdAt := now }])) },
              walletCalls := [mkBalanceUpdateRequest walletID amount false], committed := true }

/-- Embeds `TransactionServiceImpl.Deposit` (rep.go lines 575-695): the
synchronous saga body (`depositExec` on the fault flags it reads) followed
by the asynchronous notification goroutine, which runs only when the commit
happened and whose failure is only logged. -/
def deposit (env : FaultEnv) (st : SysState) (walletID : String) (amount : Int)
    (description : String) (txId : Nat) (now : Nat) : SagaResult :=
  { result := (depositExec env.failGetBalance1 env.failBeginTx env.failCreate
      env.failAddCreated env.failLeg1 env.failUpdateStatus env.failAddCompleted
      env.failCommit st walletID amount description txId now).result,
    state := (depositExec env.failGetBalance1 env.failBeginTx env.failCreate
      env.failAddCreated env.failLeg1 env.failUpdateStatus env.failAddCompleted
      env.failCommit st walletID amount description txId now).state,
    walletCalls := (depositExec env.failGetBalance1 env.failBeginTx env.failCreate
      env.failAddCreated env.failLeg1 env.failUpdateStatus env.failAddCompleted
      env.failCommit st walletID amount description txId now).walletCalls,
    notifyAttempted := (depositExec env.failGetBalance1 env.failBeginTx env.failCreate
      env.failAddCreated env.failLeg1 env.failUpdateStatus env.failAddCompleted
      env.failCommit st walletID amount description txId now).committed,
    notifyDelivered := (depositExec env.failGetBalance1 env.failBeginTx env.failCreate
      env.failAddCreated env.failLeg1 env.failUpdateStatus env.failAddCompleted
      env.failCommit st walletID amount description txId now).committed && !env.failNotify }

/-- Embeds the synchronous body of `TransactionServiceImpl.Withdraw`
(rep.go lines 698-795).  Same shape as `depositExec` with two differences
taken from the source: after `GetBalance` the service rejects
`balance < amount` with `ErrInsufficientFunds`, and the single wallet leg is
a debit (`isDebit=true`) with the wallet as the source of the transaction
row. -/
def withdrawExec (fG fB fC fA fL fU fE fM : Bool) (st : SysState)
    (walletID : String) (amount : Int) (description : String)
    (txId : Nat) (now : Nat) : SagaExec :=
  if amount ≤ 0 then
    { result := .err .invalidAmount, state := st, walletCalls := [], committed := false }
  else
    match clientGetBalance fG st.wallets walletID with
    | none =>
      { result := .err .walletNotFound, state := st, walletCalls := [], committed := false }
    | some balance =>
      if balance < amount then
        { result := .err .insufficientFunds, state := st, walletCalls := [], committed := false }
      else if fB then
        { result := .err .internal, state := st, walletCalls := [], committed := false }
      else if fC then
        { result := .err .internal, state := st, walletCalls := [], committed := false }
      else if fA then
        { result := .err .internal, state := st, walletCalls := [], committed := false }
      else
        match clientUpdateBalance fL st.wallets walletID amount true now with
        | none =>
          { result := .err .internal, state := st,
            walletCalls := [mkBalanceUpdateRequest walletID amount true], committed := false }
        | some wallets2 =>
          if fU then
            { result := .err .internal, state := { st with wallets := wallets2 },
              walletCalls := [mkBalanceUpdateRequest walletID amount true], committed := false }
          else if fM then
            { result := .err .internal, state := { st with wallets := wallets2 },
              walletCalls := [mkBalanceUpdateRequest walletID amount true], committed := false }
          else
            { result := .ok { newTransaction txId .withdraw (some walletID) none amount description now with
                              status := .completed },
              state :=
                { wallets := wallets2,
                  transactions := st.transactions ++
                    [{ newTransaction txId .withdraw (some walletID) none amount description now with
                       status := .completed }],
                  events := st.events ++
                    ([{ transactionId := txId, eventType := .created, createdAt := now }] ++
                     (if fE then []
                      else [{ transactionId := txId, eventType := .completed, createdAt := now }])) },
              walletCalls := [mkBalanceUpdateRequest walletID amount true], committed := true }

/-- Embeds `TransactionServiceImpl.Withdraw` (rep.go lines 698-823): the
synchronous saga body followed by the asynchronous notification goroutine. -/
def withdraw (env : FaultEnv) (st : SysState) (walletID : String) (amount : Int)
    (description : String) (txId : Nat) (now : Nat) : SagaResult :=
  { result := (withdrawExec env.failGetBalance1 env.failBeginTx env.failCreate
      env.failAddCreated env.failLeg1 env.failUpdateStatus env.failAddCompleted
      env.failCommit st walletID amount description txId now).result,
    state := (withdrawExec env.failGetBalance1 env.failBeginTx env.failCreate
      env.failAddCreated env.failLeg1 env.failUpdateStatus env.failAddCompleted
      env.failCommit st walletID amount description txId now).state,
    walletCalls := (withdrawExec env.failGetBalance1 env.failBeginTx env.failCreate
      env.failAddCreated env.failLeg1 env.failUpdateStatus env.failAddCompleted
      env.failCommit st walletID amount description txId now).walletCalls,
    notifyAttempted := (withdrawExec env.failGetBalance1 env.failBeginTx env.failCreate
      env.failAddCreated env.failLeg1 env.failUpdateStatus env.failAddCompleted
      env.failCommit st walletID amount description txId now).committed,
    notifyDelivered := (withdrawExec env.failGetBalance1 env.failBeginTx env.failCreate
      env.failAddCreated env.failLeg1 env.failUpdateStatus env.failAddCompleted
      env.failCommit st walletID amount description txId now).committed && !env.failNotify }

/-- Embeds the synchronous body of `TransactionServiceImpl.Transfer`
(rep.go lines 826-943).  Control flow, in source order: reject `amount <= 0`
with `ErrInvalidAmount` and equal wallets with `ErrSameWallet`; `GetBalance`
on the source (any error maps to `ErrWalletNotFound`); reject
`fromBalance < amount` with `ErrInsufficientFunds`; `GetBalance` on the
destination (any error maps to `ErrWalletNotFound`); `BeginTx`;
`CreateTransaction` of a pending transfer row; `AddTransactionEvent(created)`;
the debit leg `walletSvc.UpdateBalance(fromWalletID, amount, true)`; the
credit leg `walletSvc.UpdateBalance(toWalletID, amount, false)`;
`UpdateTransactionStatus(completed)`; `AddTransactionEvent(completed)` whose
failure is logged and ignored; `CommitTx`.  When the credit leg fails after
a successful debit, the source only rolls back its local DB transaction and
returns a wrapped internal error: it issues no compensating credit, appends
no compensation events, and writes no failed status. -/
def transferExec (fG fG2 fB fC fA fL fL2 fU fE fM : Bool) (st : SysState)
    (fromWalletID toWalletID : String) (amount : Int) (description : String)
    (txId : Nat) (now : Nat) : SagaExec :=
  if amount ≤ 0 then
    { result := .err .invalidAmount, state := st, walletCalls := [], committed := false }
  else if fromWalletID = toWalletID then
    { result := .err .sameWallet, state := st, walletCalls := [], committed := false }
  else
    match clientGetBalance fG st.wallets fromWalletID with
    | none =>
      { result := .err .walletNotFound, state := st, walletCalls := [], committed := false }
    | some fromBalance =>
      if fromBalance < amount then
        { result := .err .insufficientFunds, state := st, walletCalls := [], committed := false }
      else
        match clientGetBalance fG2 st.wallets toWalletID with
        | none =>
          { result := .err .walletNotFound, state := st, walletCalls := [], committed := false }
        | some _ =>
          if fB then
            { result := .err .internal, state := st, walletCalls := [], committed := false }
          else if fC then
            { result := .err .internal, state := st, walletCalls := [], committed := false }
          else if fA then
            { result := .err .internal, state := st, walletCalls := [], committed := false }
          else
            match clientUpdateBalance fL st.wallets fromWalletID amount true now with
            | none =>
              { result := .err .internal, state := st,
                walletCalls := [mkBalanceUpdateRequest fromWalletID amount true], committed := false }
            | some wallets2 =>
              match clientUpdateBalance fL2 wallets2 toWalletID amount false now with
              | none =>
                { result := .err .internal, state := { st with wallets := wallets2 },
                  walletCalls := [mkBalanceUpdateRequest fromWalletID amount true,
                                  mkBalanceUpdateRequest toWalletID amount false],
                  committed := false }
              | some wallets3 =>
                if fU then
                  { result := .err .internal, state := { st with wallets := wallets3 },
                    walletCalls := [mkBalanceUpdateRequest fromWalletID amount true,
                                    mkBalanceUpdateRequest toWalletID amount false],
                    committed := false }
                else if fM then
                  { result := .err .internal, state := { st with wallets := wallets3 },
                    walletCalls := [mkBalanceUpdateRequest fromWalletID amount true,
                                    mkBalanceUpdateRequest toWalletID amount false],
                    committed := false }
                else
                  { result := .ok { newTransaction txId .transfer (some fromWalletID) (some toWalletID) amount description now with
                                    status := .completed },
                    state :=
                      { wallets := wallets3,
                        transactions := st.transactions ++
                          [{ newTransaction txId .transfer (some fromWalletID) (some toWalletID) amount description now with
                             status := .completed }],
                        events := st.events ++
                          ([{ transactionId := txId, eventType := .created, createdAt := now }] ++
                           (if fE then []
                            else [{ transactionId := txId, eventType := .completed, createdAt := now }])) },
                    walletCalls := [mkBalanceUpdateRequest fromWalletID amount true,
                                    mkBalanceUpdateRequest toWalletID amount false],
                    committed := true }

/-- Embeds `TransactionServiceImpl.Transfer` (rep.go lines 826-990): the
synchronous saga body followed by the two asynchronous notification
publishes (sender and recipient), whose failures are only logged. -/
def transfer (env : FaultEnv) (st : SysState) (fromWalletID toWalletID : String)
    (amount : Int) (description : String) (txId : Nat) (now : Nat) : SagaResult :=
  { result := (transferExec env.failGetBalance1 env.failGetBalance2 env.failBeginTx
      env.failCreate env.failAddCreated env.failLeg1 env.failLeg2 env.failUpdateStatus
      env.failAddCompleted env.failCommit st fromWalletID toWalletID amount description txId now).result,
    state := (transferExec env.failGetBalance1 env.failGetBalance2 env.failBeginTx
      env.failCreate env.failAddCreated env.failLeg1 env.failLeg2 env.failUpdateStatus
      env.failAddCompleted env.failCommit st fromWalletID toWalletID amount description txId now).state,
    walletCalls := (transferExec env.failGetBalance1 env.failGetBalance2 env.failBeginTx
      env.failCreate env.failAddCreated env.failLeg1 env.failLeg2 env.failUpdateStatus
      env.failAddCompleted env.failCommit st fromWalletID toWalletID amount description txId now).walletCalls,
    notifyAttempted := (transferExec env.failGetBalance1 env.failGetBalance2 env.failBeginTx
      env.failCreate env.failAddCreated env.failLeg1 env.failLeg2 env.failUpdateStatus
      env.failAddCompleted env.failCommit st fromWalletID toWalletID amount description txId now).committed,
    notifyDelivered := (transferExec env.failGetBalance1 env.failGetBalance2 env.failBeginTx
      env.failCreate env.failAddCreated env.failLeg1 env.failLeg2 env.failUpdateStatus
      env.failAddCompleted env.failCommit st fromWalletID toWalletID amount description txId now).committed &&
      (!env.failNotify && !env.failNotify2) }

end TransactionService

/-- Concrete wallet used in sanity checks, witnesses and counterexamples:
a blocked wallet with balance 10. -/
def sampleBlockedWallet : Wallet :=
  { id := "w1", userId := "u1", balance := 10, isBlocked := true,
    blockReason := some "fraud", createdAt := 1, updatedAt := 1 }

/-- Query filter, embedding `model.TransactionFilter` (rep.go): page, limit,
sort_by and ascending as the repository reads them (the optional
type/status/date filters only add WHERE clauses and do not interact with the
pagination or sort-column logic the claims mention). -/
structure TransactionFilter where
  page : Int
  limit : Int
  sortBy : String
  sortAscending : Bool
deriving DecidableEq, Repr

/-- The computed query parameters of
`PostgresTransactionRepository.GetTransactionsForWallet`. -/
structure QueryPlan where
  page : Int
  limit : Int
  totalPages : Int
  sortField : String
  sortDirection : String
  offset : Int
deriving DecidableEq, Repr

/-- The sort-column allow-list of `GetTransactionsForWallet` (rep.go lines
255-261): the `validFields` map contains exactly `created_at`, `amount`,
`transaction_type` and `status`. -/
def validSortFields : List String :=
  ["created_at", "amount", "transaction_type", "status"]

/-- Embeds the pagination and ordering logic of
`PostgresTransactionRepository.GetTransactionsForWallet` (rep.go lines
194-283): pages below 1 default to 1 and limits below 1 default to 10;
`totalPages := (totalCount + limit - 1) / limit` in integer arithmetic; the
sort field starts as `created_at` and is replaced by `filter.SortBy` only
when that value is non-empty and in the `validFields` allow-list; the sort
direction is DESC unless `SortAscending`; the OFFSET is `(page-1)*limit`.
`totalCount` is the result of the COUNT query, hence a natural number.  The
row-scanning part of the function maps SQL rows to `model.Transaction`
values and is not part of the computed plan. -/
def getTransactionsForWalletPlan (filter : TransactionFilter) (totalCount : Nat) : QueryPlan :=
  { page := if filter.page < 1 then 1 else filter.page,
    limit := if filter.limit < 1 then 10 else filter.limit,
    totalPages :=
      ((totalCount : Int) + (if filter.limit < 1 then 10 else filter.limit) - 1) /
        (if filter.limit < 1 then 10 else filter.limit),
    sortField :=
      if filter.sortBy ≠ "" then
        (if filter.sortBy ∈ validSortFields then filter.sortBy else "created_at")
      else "created_at",
    sortDirection := if filter.sortAscending then "ASC" else "DESC",
    offset :=
      ((if filter.page < 1 then 1 else filter.page) - 1) *
        (if filter.limit < 1 then 10 else filter.limit) }

/-- Demo wallet with balance 100, used in witnesses and counterexamples. -/
def walletA : Wallet :=
  { id := "w1", userId := "u1", balance := 100, isBlocked := false,
    blockReason := none, createdAt := 0, updatedAt := 0 }

/-- Demo wallet with balance 0, used in witnesses and counterexamples. -/
def walletB : Wallet :=
  { id := "w2", userId := "u2", balance := 0, isBlocked := false,
    blockReason := none, createdAt := 0, updatedAt := 0 }

/-- Demo global state: two wallets, empty transaction and event tables. -/
def demoState : SysState :=
  { wallets := [walletA, walletB], transactions := [], events := [] }



section WalletLemmas

/-- When a lookup succeeds, the found row carries the looked-up id. -/
theorem findWallet_id {db : List Wallet} {id : String} {w : Wallet}
    (h : findWallet db id = some w) : w.id = id := by
  have := List.find?_some h
  simpa using this

/-- Replacing the looked-up row does not disturb lookups of other ids. -/
theorem findWallet_replaceWallet_ne {db : List Wallet} {id j : String} {w' : Wallet}
    (hid : w'.id = id) (hne : j ≠ id) :
    findWallet (replaceWallet db id w') j = findWallet db j := by
  induction db with
  | nil => rfl
  | cons x xs ih =>
    unfold findWallet replaceWallet at *
    simp only [List.map_cons]
    by_cases hx : x.id = id
    · have hwj : ¬ (w'.id = j) := fun hh => hne (hh ▸ hid)
      have hxj : ¬ (x.id = j) := fun hh => hne (hh ▸ hx)
      rw [if_pos hx, List.find?_cons_of_neg _ (by simpa using hwj),
          List.find?_cons_of_neg _ (by simpa using hxj)]
      exact ih
    · rw [if_neg hx]
      by_cases hxj : x.id = j
      · rw [List.find?_cons_of_pos _ (by simpa using hxj),
            List.find?_cons_of_pos _ (by simpa using hxj)]
      · rw [List.find?_cons_of_neg _ (by simpa using hxj),
            List.find?_cons_of_neg _ (by simpa using hxj)]
        exact ih

/-- Replacing the looked-up row makes the replacement visible at that id,
provided the row being replaced was found. -/
theorem findWallet_replaceWallet_eq {db : List Wallet} {id : String} {w w' : Wallet}
    (h : findWallet db id = some w) (hid : w'.id = id) :
    findWallet (replaceWallet db id w') id = some w' := by
  induction db with
  | nil => simp [findWallet] at h
  | cons x xs ih =>
    unfold findWallet replaceWallet at *
    simp only [List.map_cons]
    by_cases hx : x.id = id
    · rw [if_pos hx, List.find?_cons_of_pos _ (by simpa using hid)]
    · rw [if_neg hx, List.find?_cons_of_neg _ (by simpa using hx)]
      rw [List.find?_cons_of_neg _ (by simpa using hx)] at h
      exact ih h

/-- Spec of `updateBalance` on an existing row, shared by several claims:
the success and the insufficient-funds branches. -/
theorem updateBalance_found {db : List Wallet} {id : String} {w : Wallet}
    (amount : Int) (now : Nat) (h : findWallet db id = some w) :
    WalletRepository.updateBalance db id amount now =
      (if w.balance + amount < 0 then (.err .insufficientFunds, db)
       else (.ok { w with balance := w.balance + amount, updatedAt := now },
             replaceWallet db id { w with balance := w.balance + amount, updatedAt := now })) := by
  simp [WalletRepository.updateBalance, h]

end WalletLemmas

section ClaimC4

/-- Claim C4: for every existing wallet and every signed amount,
`UpdateBalance` returns a wallet whose balance equals the previous balance
plus the signed amount when that sum is non-negative; when the sum would be
negative it fails with `InsufficientFunds` and the store (hence the balance)
is unchanged; and for a wallet id with no wallet it fails with
`WalletNotFound` leaving the store unchanged. -/
theorem c4_updateBalance_correct (db : List Wallet) (id : String)
    (amount : Int) (now : Nat) :
    (∀ w, findWallet db id = some w → 0 ≤ w.balance + amount →
      WalletRepository.updateBalance db id amount now =
        (.ok { w with balance := w.balance + amount, updatedAt := now },
         replaceWallet db id { w with balance := w.balance + amount, updatedAt := now })) ∧
    (∀ w, findWallet db id = some w → w.balance + amount < 0 →
      WalletRepository.updateBalance db id amount now = (.err .insufficientFunds, db)) ∧
    (findWallet db id = none →
      WalletRepository.updateBalance db id amount now = (.err .walletNotFound, db)) := by
  refine ⟨fun w hw hpos => ?_, fun w hw hneg => ?_, fun hn => ?_⟩
  · rw [updateBalance_found amount now hw, if_neg (by omega)]
  · rw [updateBalance_found amount now hw, if_pos hneg]
  · simp [WalletRepository.updateBalance, hn]


/-- Witness for C4: the three branches at concrete inputs. -/
theorem c4_updateBalance_correct_witness :
    WalletRepository.updateBalance [sampleBlockedWallet] ("w1") 5 7 =
      (.ok { sampleBlockedWallet with balance := 15, updatedAt := 7 },
       [{ sampleBlockedWallet with balance := 15, updatedAt := 7 }]) ∧
    WalletRepository.updateBalance [sampleBlockedWallet] ("w1") (-11) 7 =
      (.err .insufficientFunds, [sampleBlockedWallet]) ∧
    WalletRepository.updateBalance [sampleBlockedWallet] ("w2") 5 7 =
      (.err .walletNotFound, [sampleBlockedWallet]) := by
  refine ⟨?_, ?_, ?_⟩
  · have h := (c4_updateBalance_correct [sampleBlockedWallet] ("w1") 5 7).1
      sampleBlockedWallet (by decide) (by decide)
    simpa [replaceWallet, sampleBlockedWallet] using h
  · exact (c4_updateBalance_correct [sampleBlockedWallet] ("w1") (-11) 7).2.1
      sampleBlockedWallet (by decide) (by decide)
  · exact (c4_updateBalance_correct [sampleBlockedWallet] ("w2") 5 7).2.2 (by decide)

end ClaimC4

section ClaimC3

/-- Counterexample for claim C3 as stated: `sampleBlockedWallet` has
`is_blocked = true`, yet `UpdateBalance` with amount 5 is not rejected — it
succeeds and changes the stored balance from 10 to 15.  No `WalletBlocked`
rejection exists anywhere in the wallet repository or service. -/
theorem c3_blocked_wallet_counterexample :
    sampleBlockedWallet.isBlocked = true ∧
    WalletRepository.updateBalance [sampleBlockedWallet] ("w1") 5 7 =
      (.ok { sampleBlockedWallet with balance := 15, updatedAt := 7 },
       [{ sampleBlockedWallet with balance := 15, updatedAt := 7 }]) ∧
    ({ sampleBlockedWallet with balance := 15, updatedAt := 7 } : Wallet).balance ≠
      sampleBlockedWallet.balance := by
  refine ⟨rfl, ?_, by decide⟩
  decide

/-- Claim C3 amended: `UpdateBalance` never consults `is_blocked`; a blocked
wallet's balance-mutation attempts are processed exactly as an unblocked
wallet's — they succeed (and mutate the balance) whenever the wallet exists
and the resulting balance is non-negative, and fail only with
`InsufficientFunds` or `WalletNotFound`. -/
theorem c3_blocked_wallet_not_rejected (db : List Wallet) (id : String)
    (amount : Int) (now : Nat) :
    (∀ w, findWallet db id = some w → w.isBlocked = true → 0 ≤ w.balance + amount →
      WalletRepository.updateBalance db id amount now =
        (.ok { w with balance := w.balance + amount, updatedAt := now },
         replaceWallet db id { w with balance := w.balance + amount, updatedAt := now })) ∧
    (∀ w, findWallet db id = some w → w.isBlocked = true → w.balance + amount < 0 →
      WalletRepository.updateBalance db id amount now = (.err .insufficientFunds, db)) := by
  refine ⟨fun w hw _ hpos => ?_, fun w hw _ hneg => ?_⟩
  · rw [updateBalance_found amount now hw, if_neg (by omega)]
  · rw [updateBalance_found amount now hw, if_pos hneg]

/-- Witness for the amended C3 at a concrete blocked wallet. -/
theorem c3_blocked_wallet_not_rejected_witness :
    WalletRepository.updateBalance [sampleBlockedWallet] ("w1") 5 7 =
      (.ok { sampleBlockedWallet with balance := 15, updatedAt := 7 },
       [{ sampleBlockedWallet with balance := 15, updatedAt := 7 }]) ∧
    WalletRepository.updateBalance [sampleBlockedWallet] ("w1") (-11) 7 =
      (.err .insufficientFunds, [sampleBlockedWallet]) := by
  constructor
  · have h := (c3_blocked_wallet_not_rejected [sampleBlockedWallet] ("w1") 5 7).1
      sampleBlockedWallet (by decide) (by decide) (by decide)
    simpa [replaceWallet, sampleBlockedWallet] using h
  · exact (c3_blocked_wallet_not_rejected [sampleBlockedWallet] ("w1") (-11) 7).2
      sampleBlockedWallet (by decide) (by decide) (by decide)

end ClaimC3

section ClaimC10

/-- Claim C10: `Block` and `Unblock` modify only `is_blocked`,
`block_reason` and `updated_at` of the target wallet: the returned wallet
keeps the previous `balance`, `user_id`, `id` and `created_at`, the stored
target row is exactly the returned wallet, and every other wallet id's
lookup is untouched. -/
theorem c10_block_unblock_frame (db : List Wallet) (id reason : String)
    (now : Nat) (w : Wallet) (hw : findWallet db id = some w) :
    (WalletRepository.block db id reason now =
      (.ok { w with isBlocked := true, blockReason := some reason, updatedAt := now },
       replaceWallet db id { w with isBlocked := true, blockReason := some reason, updatedAt := now })) ∧
    (WalletRepository.unblock db id now =
      (.ok { w with isBlocked := false, blockReason := none, updatedAt := now },
       replaceWallet db id { w with isBlocked := false, blockReason := none, updatedAt := now })) ∧
    (findWallet (WalletRepository.block db id reason now).2 id =
      some { w with isBlocked := true, blockReason := some reason, updatedAt := now }) ∧
    (findWallet (WalletRepository.unblock db id now).2 id =
      some { w with isBlocked := false, blockReason := none, updatedAt := now }) ∧
    (∀ j, j ≠ id →
      findWallet (WalletRepository.block db id reason now).2 j = findWallet db j) ∧
    (∀ j, j ≠ id →
      findWallet (WalletRepository.unblock db id now).2 j = findWallet db j) := by
  have hid : w.id = id := findWallet_id hw
  have hb : WalletRepository.block db id reason now =
      (.ok { w with isBlocked := true, blockReason := some reason, updatedAt := now },
       replaceWallet db id { w with isBlocked := true, blockReason := some reason, updatedAt := now }) := by
    simp [WalletRepository.block, hw]
  have hu : WalletRepository.unblock db id now =
      (.ok { w with isBlocked := false, blockReason := none, updatedAt := now },
       replaceWallet db id { w with isBlocked := false, blockReason := none, updatedAt := now }) := by
    simp [WalletRepository.unblock, hw]
  refine ⟨hb, hu, ?_, ?_, ?_, ?_⟩
  · rw [hb]
    exact findWallet_replaceWallet_eq hw hid
  · rw [hu]
    exact findWallet_replaceWallet_eq hw hid
  · intro j hj
    rw [hb]
    exact findWallet_replaceWallet_ne hid hj
  · intro j hj
    rw [hu]
    exact findWallet_replaceWallet_ne hid hj

/-- Witness for C10 at a concrete store of two wallets. -/
theorem c10_block_unblock_frame_witness :
    (WalletRepository.block
        [sampleBlockedWallet,
         { id := "w2", userId := "u2", balance := 3, isBlocked := false,
           blockReason := none, createdAt := 2, updatedAt := 2 }] ("w2") ("fraud") 9).1 =
      .ok { id := "w2", userId := "u2", balance := 3, isBlocked := true,
            blockReason := some "fraud", createdAt := 2, updatedAt := 9 } ∧
    findWallet
      (WalletRepository.block
        [sampleBlockedWallet,
         { id := "w2", userId := "u2", balance := 3, isBlocked := false,
           blockReason := none, createdAt := 2, updatedAt := 2 }] ("w2") ("fraud") 9).2 ("w1") =
      some sampleBlockedWallet := by
  have h := c10_block_unblock_frame
    [sampleBlockedWallet,
     { id := "w2", userId := "u2", balance := 3, isBlocked := false,
       blockReason := none, createdAt := 2, updatedAt := 2 }] ("w2") ("fraud") 9
    { id := "w2", userId := "u2", balance := 3, isBlocked := false,
      blockReason := none, createdAt := 2, updatedAt := 2 } (by decide)
  constructor
  · rw [h.1]
  · rw [h.2.2.2.2.1 ("w1") (by decide)]
    decide

end ClaimC10

section SagaHelperLemmas

/-- A succeeding `GetBalance` RPC returns the stored balance. -/
theorem clientGetBalance_found {db : List Wallet} {wid : String} {w : Wallet}
    (h : findWallet db wid = some w) :
    clientGetBalance false db wid = some w.balance := by
  simp [clientGetBalance, h]

/-- A fault-free credit leg on an existing wallet with a non-negative
resulting balance updates the store. -/
theorem clientUpdateBalance_credit_found {db : List Wallet} {wid : String} {w : Wallet}
    (amount : Int) (now : Nat) (h : findWallet db wid = some w)
    (hnn : 0 ≤ w.balance + amount) :
    clientUpdateBalance false db wid amount false now =
      some (replaceWallet db wid { w with balance := w.balance + amount, updatedAt := now }) := by
  have hne : ¬ (w.balance + amount < 0) := by omega
  simp [clientUpdateBalance, updateBalance_found amount now h, hne]

/-- A fault-free debit leg on an existing wallet with sufficient balance
updates the store. -/
theorem clientUpdateBalance_debit_found {db : List Wallet} {wid : String} {w : Wallet}
    (amount : Int) (now : Nat) (h : findWallet db wid = some w)
    (hnn : 0 ≤ w.balance - amount) :
    clientUpdateBalance false db wid amount true now =
      some (replaceWallet db wid { w with balance := w.balance - amount, updatedAt := now }) := by
  have hne : ¬ (w.balance + -amount < 0) := by omega
  have hlt : ¬ (w.balance < amount) := by omega
  have hbal : w.balance + -amount = w.balance - amount := by omega
  simp [clientUpdateBalance, updateBalance_found (-amount) now h, hne, hlt, hbal]

end SagaHelperLemmas

section ClaimC1

/-- Claim C1 (code bug demonstration): two submissions of the identical
deposit request (same wallet, amount and description; the service has no
idempotency-key parameter at all, the gRPC handler drops the proto's
`idempotency_key` field) both execute in full: each call credits the wallet
(balance 100 goes to 120 and then to 140 — two wallet-balance effects),
each commits its own transaction row, and the two calls resolve to two
different transaction ids. -/
theorem c1_duplicate_request_double_effect :
    (TransactionService.deposit okEnv demoState ("w1") 20 ("d") 1 10).result =
      .ok { id := 1, transactionType := .deposit, sourceWalletId := none,
            destinationWalletId := some "w1", amount := 20, status := .completed,
            description := "d", createdAt := 10, updatedAt := 10 } ∧
    (TransactionService.deposit okEnv
        (TransactionService.deposit okEnv demoState ("w1") 20 ("d") 1 10).state
        ("w1") 20 ("d") 2 11).result =
      .ok { id := 2, transactionType := .deposit, sourceWalletId := none,
            destinationWalletId := some "w1", amount := 20, status := .completed,
            description := "d", createdAt := 11, updatedAt := 11 } ∧
    (findWallet
        (TransactionService.deposit okEnv
          (TransactionService.deposit okEnv demoState ("w1") 20 ("d") 1 10).state
          ("w1") 20 ("d") 2 11).state.wallets ("w1")).map (fun w => w.balance) =
      some 140 ∧
    (TransactionService.deposit okEnv
        (TransactionService.deposit okEnv demoState ("w1") 20 ("d") 1 10).state
        ("w1") 20 ("d") 2 11).state.transactions.length = 2 := by
  refine ⟨?_, ?_, ?_, ?_⟩ <;> decide

end ClaimC1

section ClaimC2

/-- Claim C2 (code bug demonstration): a transfer of 40 from `w1`
(balance 100) to `w2` (balance 0) whose credit leg fails after the debit leg
succeeded ends with: a wrapped internal error (not `TransactionFailed`), the
source wallet left at 60 — its pre-transfer value is NOT restored, no
compensating credit is issued (the wallet-call trace holds exactly the debit
and the failed credit), no transaction row committed (no `status=failed`
record), and no events appended (no `compensation_started` or
`compensation_completed`; such event types do not even exist in the model). -/
theorem c2_failed_credit_leg_not_compensated :
    TransactionService.transfer { okEnv with failLeg2 := true } demoState
        ("w1") ("w2") 40 ("t") 1 5 =
      { result := .err .internal,
        state := { wallets := [{ walletA with balance := 60, updatedAt := 5 }, walletB],
                   transactions := [], events := [] },
        walletCalls := [{ walletId := "w1", amount := 40, operation := .debit },
                        { walletId := "w2", amount := 40, operation := .credit }],
        notifyAttempted := false, notifyDelivered := false } ∧
    ({ walletA with balance := 60, updatedAt := 5 } : Wallet).balance ≠ walletA.balance := by
  refine ⟨?_, ?_⟩ <;> decide

end ClaimC2

section ClaimC5

/-- Claim C5: every validation or pre-mutation check failure of Deposit,
Withdraw or Transfer — non-positive amount (`ErrInvalidAmount`), equal
transfer wallets (`ErrSameWallet`), a failing `GetBalance` on any leg
(`ErrWalletNotFound`), or a source balance below the amount
(`ErrInsufficientFunds`) — returns the typed error with the global state
unchanged: no wallet balance touched, no transaction row or event
committed, and no wallet-mutation call issued. -/
theorem c5_pre_mutation_failures_leave_state_unchanged
    (env : FaultEnv) (st : SysState) (wid src dst : String) (amount : Int)
    (d : String) (i now : Nat) :
    (amount ≤ 0 →
      TransactionService.deposit env st wid amount d i now =
        { result := .err .invalidAmount, state := st, walletCalls := [],
          notifyAttempted := false, notifyDelivered := false }) ∧
    (amount ≤ 0 →
      TransactionService.withdraw env st wid amount d i now =
        { result := .err .invalidAmount, state := st, walletCalls := [],
          notifyAttempted := false, notifyDelivered := false }) ∧
    (amount ≤ 0 →
      TransactionService.transfer env st src dst amount d i now =
        { result := .err .invalidAmount, state := st, walletCalls := [],
          notifyAttempted := false, notifyDelivered := false }) ∧
    (¬ amount ≤ 0 → src = dst →
      TransactionService.transfer env st src dst amount d i now =
        { result := .err .sameWallet, state := st, walletCalls := [],
          notifyAttempted := false, notifyDelivered := false }) ∧
    (¬ amount ≤ 0 → clientGetBalance env.failGetBalance1 st.wallets wid = none →
      TransactionService.deposit env st wid amount d i now =
        { result := .err .walletNotFound, state := st, walletCalls := [],
          notifyAttempted := false, notifyDelivered := false }) ∧
    (¬ amount ≤ 0 → clientGetBalance env.failGetBalance1 st.wallets wid = none →
      TransactionService.withdraw env st wid amount d i now =
        { result := .err .walletNotFound, state := st, walletCalls := [],
          notifyAttempted := false, notifyDelivered := false }) ∧
    (¬ amount ≤ 0 → ∀ b, clientGetBalance env.failGetBalance1 st.wallets wid = some b →
      b < amount →
      TransactionService.withdraw env st wid amount d i now =
        { result := .err .insufficientFunds, state := st, walletCalls := [],
          notifyAttempted := false, notifyDelivered := false }) ∧
    (¬ amount ≤ 0 → src ≠ dst →
      clientGetBalance env.failGetBalance1 st.wallets src = none →
      TransactionService.transfer env st src dst amount d i now =
        { result := .err .walletNotFound, state := st, walletCalls := [],
          notifyAttempted := false, notifyDelivered := false }) ∧
    (¬ amount ≤ 0 → src ≠ dst →
      ∀ b, clientGetBalance env.failGetBalance1 st.wallets src = some b →
      b < amount →
      TransactionService.transfer env st src dst amount d i now =
        { result := .err .insufficientFunds, state := st, walletCalls := [],
          notifyAttempted := false, notifyDelivered := false }) ∧
    (¬ amount ≤ 0 → src ≠ dst →
      ∀ b, clientGetBalance env.failGetBalance1 st.wallets src = some b →
      ¬ b < amount →
      clientGetBalance env.failGetBalance2 st.wallets dst = none →
      TransactionService.transfer env st src dst amount d i now =
        { result := .err .walletNotFound, state := st, walletCalls := [],
          notifyAttempted := false, notifyDelivered := false }) := by
  refine ⟨?_, ?_, ?_, ?_, ?_, ?_, ?_, ?_, ?_, ?_⟩
  · intro h
    simp [TransactionService.deposit, TransactionService.depositExec, if_pos h]
  · intro h
    simp [TransactionService.withdraw, TransactionService.withdrawExec, if_pos h]
  · intro h
    simp [TransactionService.transfer, TransactionService.transferExec, if_pos h]
  · intro h he
    simp [TransactionService.transfer, TransactionService.transferExec, if_neg h, he]
  · intro h hg
    simp [TransactionService.deposit, TransactionService.depositExec, if_neg h, hg]
  · intro h hg
    simp [TransactionService.withdraw, TransactionService.withdrawExec, if_neg h, hg]
  · intro h b hg hb
    simp [TransactionService.withdraw, TransactionService.withdrawExec, if_neg h, hg, if_pos hb]
  · intro h hne hg
    simp [TransactionService.transfer, TransactionService.transferExec, if_neg h, hne, hg]
  · intro h hne b hg hb
    simp [TransactionService.transfer, TransactionService.transferExec, if_neg h, hne, hg, if_pos hb]
  · intro h hne b hg hb hg2
    simp [TransactionService.transfer, TransactionService.transferExec, if_neg h, hne, hg, if_neg hb, hg2]

/-- Witness for C5: each of the ten failure branches at concrete inputs
over `demoState` (`w1` holds 100, `w2` holds 0, `w3` does not exist). -/
theorem c5_pre_mutation_failures_witness :
    TransactionService.deposit okEnv demoState ("w1") 0 ("d") 1 5 =
      { result := .err .invalidAmount, state := demoState, walletCalls := [],
        notifyAttempted := false, notifyDelivered := false } ∧
    TransactionService.withdraw okEnv demoState ("w1") 0 ("d") 1 5 =
      { result := .err .invalidAmount, state := demoState, walletCalls := [],
        notifyAttempted := false, notifyDelivered := false } ∧
    TransactionService.transfer okEnv demoState ("w1") ("w2") 0 ("d") 1 5 =
      { result := .err .invalidAmount, state := demoState, walletCalls := [],
        notifyAttempted := false, notifyDelivered := false } ∧
    TransactionService.transfer okEnv demoState ("w1") ("w1") 5 ("d") 1 5 =
      { result := .err .sameWallet, state := demoState, walletCalls := [],
        notifyAttempted := false, notifyDelivered := false } ∧
    TransactionService.deposit okEnv demoState ("w3") 5 ("d") 1 5 =
      { result := .err .walletNotFound, state := demoState, walletCalls := [],
        notifyAttempted := false, notifyDelivered := false } ∧
    TransactionService.withdraw okEnv demoState ("w3") 5 ("d") 1 5 =
      { result := .err .walletNotFound, state := demoState, walletCalls := [],
        notifyAttempted := false, notifyDelivered := false } ∧
    TransactionService.withdraw okEnv demoState ("w2") 5 ("d") 1 5 =
      { result := .err .insufficientFunds, state := demoState, walletCalls := [],
        notifyAttempted := false, notifyDelivered := false } ∧
    TransactionService.transfer okEnv demoState ("w3") ("w2") 5 ("d") 1 5 =
      { result := .err .walletNotFound, state := demoState, walletCalls := [],
        notifyAttempted := false, notifyDelivered := false } ∧
    TransactionService.transfer okEnv demoState ("w2") ("w1") 5 ("d") 1 5 =
      { result := .err .insufficientFunds, state := demoState, walletCalls := [],
        notifyAttempted := false, notifyDelivered := false } ∧
    TransactionService.transfer okEnv demoState ("w1") ("w3") 5 ("d") 1 5 =
      { result := .err .walletNotFound, state := demoState, walletCalls := [],
        notifyAttempted := false, notifyDelivered := false } := by
  refine ⟨?_, ?_, ?_, ?_, ?_, ?_, ?_, ?_, ?_, ?_⟩
  · exact (c5_pre_mutation_failures_leave_state_unchanged okEnv demoState
      ("w1") ("w1") ("w2") 0 ("d") 1 5).1 (by decide)
  · exact (c5_pre_mutation_failures_leave_state_unchanged okEnv demoState
      ("w1") ("w1") ("w2") 0 ("d") 1 5).2.1 (by decide)
  · exact (c5_pre_mutation_failures_leave_state_unchanged okEnv demoState
      ("w1") ("w1") ("w2") 0 ("d") 1 5).2.2.1 (by decide)
  · exact (c5_pre_mutation_failures_leave_state_unchanged okEnv demoState
      ("w1") ("w1") ("w1") 5 ("d") 1 5).2.2.2.1 (by decide) rfl
  · exact (c5_pre_mutation_failures_leave_state_unchanged okEnv demoState
      ("w3") ("w1") ("w2") 5 ("d") 1 5).2.2.2.2.1 (by decide) (by decide)
  · exact (c5_pre_mutation_failures_leave_state_unchanged okEnv demoState
      ("w3") ("w1") ("w2") 5 ("d") 1 5).2.2.2.2.2.1 (by decide) (by decide)
  · exact (c5_pre_mutation_failures_leave_state_unchanged okEnv demoState
      ("w2") ("w1") ("w2") 5 ("d") 1 5).2.2.2.2.2.2.1 (by decide) 0 (by decide) (by decide)
  · exact (c5_pre_mutation_failures_leave_state_unchanged okEnv demoState
      ("w1") ("w3") ("w2") 5 ("d") 1 5).2.2.2.2.2.2.2.1 (by decide) (by decide) (by decide)
  · exact (c5_pre_mutation_failures_leave_state_unchanged okEnv demoState
      ("w1") ("w2") ("w1") 5 ("d") 1 5).2.2.2.2.2.2.2.2.1 (by decide) (by decide) 0 (by decide) (by decide)
  · exact (c5_pre_mutation_failures_leave_state_unchanged okEnv demoState
      ("w1") ("w1") ("w3") 5 ("d") 1 5).2.2.2.2.2.2.2.2.2 (by decide) (by decide) 100 (by decide) (by decide) (by decide)

end ClaimC5

section ClaimC9

/-- Claim C9: in Deposit, Withdraw and Transfer, when every step succeeds
except appending the `completed` event (`failAddCompleted := true`), the
database transaction is still committed and the call still returns the
completed transaction: the result is `ok` with `status = completed`, the
completed row is committed, but the committed event log holds only the
`created` event — a COMPLETED transaction with no `completed` event. -/
theorem c9_completed_event_append_failure_still_commits
    (st : SysState) (wid src dst : String) (amount : Int) (d : String)
    (i now : Nat) (fn fn2 : Bool) (w wSrc wDst : Wallet)
    (hw : findWallet st.wallets wid = some w)
    (hpos : 0 < amount) (hnn : 0 ≤ w.balance) (hwb : amount ≤ w.balance)
    (hsrc : findWallet st.wallets src = some wSrc)
    (hdst : findWallet st.wallets dst = some wDst)
    (hne : src ≠ dst)
    (hsb : amount ≤ wSrc.balance) (hdb : 0 ≤ wDst.balance) :
    TransactionService.deposit
        { okEnv with failAddCompleted := true, failNotify := fn, failNotify2 := fn2 }
        st wid amount d i now =
      { result := .ok { newTransaction i .deposit none (some wid) amount d now with
                        status := .completed },
        state :=
          { wallets := replaceWallet st.wallets wid
              { w with balance := w.balance + amount, updatedAt := now },
            transactions := st.transactions ++
              [{ newTransaction i .deposit none (some wid) amount d now with
                 status := .completed }],
            events := st.events ++
              [{ transactionId := i, eventType := .created, createdAt := now }] },
        walletCalls := [mkBalanceUpdateRequest wid amount false],
        notifyAttempted := true, notifyDelivered := !fn } ∧
    TransactionService.withdraw
        { okEnv with failAddCompleted := true, failNotify := fn, failNotify2 := fn2 }
        st wid amount d i now =
      { result := .ok { newTransaction i .withdraw (some wid) none amount d now with
                        status := .completed },
        state :=
          { wallets := replaceWallet st.wallets wid
              { w with balance := w.balance - amount, updatedAt := now },
            transactions := st.transactions ++
              [{ newTransaction i .withdraw (some wid) none amount d now with
                 status := .completed }],
            events := st.events ++
              [{ transactionId := i, eventType := .created, createdAt := now }] },
        walletCalls := [mkBalanceUpdateRequest wid amount true],
        notifyAttempted := true, notifyDelivered := !fn } ∧
    TransactionService.transfer
        { okEnv with failAddCompleted := true, failNotify := fn, failNotify2 := fn2 }
        st src dst amount d i now =
      { result := .ok { newTransaction i .transfer (some src) (some dst) amount d now with
                        status := .completed },
        state :=
          { wallets := replaceWallet
              (replaceWallet st.wallets src
                { wSrc with balance := wSrc.balance - amount, updatedAt := now }) dst
              { wDst with balance := wDst.balance + amount, updatedAt := now },
            transactions := st.transactions ++
              [{ newTransaction i .transfer (some src) (some dst) amount d now with
                 status := .completed }],
            events := st.events ++
              [{ transactionId := i, eventType := .created, createdAt := now }] },
        walletCalls := [mkBalanceUpdateRequest src amount true,
                        mkBalanceUpdateRequest dst amount false],
        notifyAttempted := true, notifyDelivered := !fn && !fn2 } := by
  have h1 : ¬ amount ≤ 0 := by omega
  refine ⟨?_, ?_, ?_⟩
  · have hg := clientGetBalance_found hw
    have hu := clientUpdateBalance_credit_found amount now hw (by omega)
    simp [TransactionService.deposit, TransactionService.depositExec, okEnv, if_neg h1, hg, hu]
  · have hg := clientGetBalance_found hw
    have hlt : ¬ (w.balance < amount) := by omega
    have hu := clientUpdateBalance_debit_found amount now hw (by omega)
    simp [TransactionService.withdraw, TransactionService.withdrawExec, okEnv, if_neg h1, hg, hlt, hu]
  · have hg1 := clientGetBalance_found hsrc
    have hlt : ¬ (wSrc.balance < amount) := by omega
    have hg2 := clientGetBalance_found hdst
    have hu1 := clientUpdateBalance_debit_found amount now hsrc (by omega)
    have hid : ({ wSrc with balance := wSrc.balance - amount, updatedAt := now } : Wallet).id = src := by
      simpa using findWallet_id hsrc
    have hdst2 : findWallet
        (replaceWallet st.wallets src
          { wSrc with balance := wSrc.balance - amount, updatedAt := now }) dst = some wDst := by
      rw [findWallet_replaceWallet_ne hid (fun hh => hne hh.symm)]
      exact hdst
    have hu2 := clientUpdateBalance_credit_found amount now hdst2 (by omega)
    simp [TransactionService.transfer, TransactionService.transferExec, okEnv, if_neg h1, hne, hg1, hlt, hg2, hu1, hu2]

/-- Witness for C9: a deposit, a withdrawal and a transfer over `demoState`
with the completed-event append failing; each still returns the completed
transaction. -/
theorem c9_completed_event_append_failure_witness :
    (TransactionService.deposit { okEnv with failAddCompleted := true, failNotify := false, failNotify2 := false }
        demoState ("w1") 20 ("d") 1 5).result =
      .ok { newTransaction 1 .deposit none (some "w1") 20 ("d") 5 with status := .completed } ∧
    (TransactionService.deposit { okEnv with failAddCompleted := true, failNotify := false, failNotify2 := false }
        demoState ("w1") 20 ("d") 1 5).state.events =
      [{ transactionId := 1, eventType := .created, createdAt := 5 }] ∧
    (TransactionService.withdraw { okEnv with failAddCompleted := true, failNotify := false, failNotify2 := false }
        demoState ("w1") 20 ("d") 1 5).result =
      .ok { newTransaction 1 .withdraw (some "w1") none 20 ("d") 5 with status := .completed } ∧
    (TransactionService.transfer { okEnv with failAddCompleted := true, failNotify := false, failNotify2 := false }
        demoState ("w1") ("w2") 20 ("t") 1 5).result =
      .ok { newTransaction 1 .transfer (some "w1") (some "w2") 20 ("t") 5 with status := .completed } := by
  have h := c9_completed_event_append_failure_still_commits demoState
    ("w1") ("w1") ("w2") 20 ("d") 1 5 false false walletA walletA walletB
    (by decide) (by decide) (by decide) (by decide) (by decide) (by decide)
    (by decide) (by decide) (by decide)
  have ht := c9_completed_event_append_failure_still_commits demoState
    ("w1") ("w1") ("w2") 20 ("t") 1 5 false false walletA walletA walletB
    (by decide) (by decide) (by decide) (by decide) (by decide) (by decide)
    (by decide) (by decide) (by decide)
  refine ⟨?_, ?_, ?_, ?_⟩
  · rw [h.1]
  · rw [h.1]
    decide
  · rw [h.2.1]
  · rw [ht.2.2]

end ClaimC9

section ClaimC8

/-- Counterexample for claim C8 as stated: a fully successful deposit whose
notification dispatch fails (`failNotify := true`) commits and returns
normally, but the committed event log is exactly `[created, completed]` —
no `notification_sent` event is recorded, although the claim requires one
regardless of the dispatch outcome.  (`model.EventNotificationSent` is
declared in the source but never emitted on any path.) -/
theorem c8_no_notification_sent_event_counterexample :
    (TransactionService.deposit { okEnv with failNotify := true } demoState
        ("w1") 20 ("d") 1 5).notifyAttempted = true ∧
    (TransactionService.deposit { okEnv with failNotify := true } demoState
        ("w1") 20 ("d") 1 5).notifyDelivered = false ∧
    (TransactionService.deposit { okEnv with failNotify := true } demoState
        ("w1") 20 ("d") 1 5).result =
      .ok { newTransaction 1 .deposit none (some "w1") 20 ("d") 5 with status := .completed } ∧
    (TransactionService.deposit { okEnv with failNotify := true } demoState
        ("w1") 20 ("d") 1 5).state.events =
      [{ transactionId := 1, eventType := .created, createdAt := 5 },
       { transactionId := 1, eventType := .completed, createdAt := 5 }] ∧
    ((TransactionService.deposit { okEnv with failNotify := true } demoState
        ("w1") 20 ("d") 1 5).state.events.all
      (fun e => decide (e.eventType ≠ EventType.notificationSent))) = true := by
  refine ⟨?_, ?_, ?_, ?_, ?_⟩ <;> decide

set_option maxHeartbeats 2000000 in
/-- Claim C8 amended: for every Deposit, Withdraw or Transfer, notification
dispatch happens only after the database transaction has committed
successfully (an attempted dispatch implies an `ok` result), a dispatch
failure changes nothing except the delivery flag — the returned result, the
committed state, the wallet calls and the fact of the attempt are all
independent of the notification fault flags — and no `notification_sent`
event is ever recorded (any such event in the final log was already there
before the call). -/
theorem c8_notification_outside_saga
    (env : FaultEnv) (st : SysState) (wid src dst : String) (amount : Int)
    (d : String) (i now : Nat) (b b2 : Bool) :
    ((TransactionService.deposit { env with failNotify := b, failNotify2 := b2 } st wid amount d i now).result =
        (TransactionService.deposit env st wid amount d i now).result ∧
      (TransactionService.deposit { env with failNotify := b, failNotify2 := b2 } st wid amount d i now).state =
        (TransactionService.deposit env st wid amount d i now).state ∧
      (TransactionService.deposit { env with failNotify := b, failNotify2 := b2 } st wid amount d i now).walletCalls =
        (TransactionService.deposit env st wid amount d i now).walletCalls ∧
      (TransactionService.deposit { env with failNotify := b, failNotify2 := b2 } st wid amount d i now).notifyAttempted =
        (TransactionService.deposit env st wid amount d i now).notifyAttempted) ∧
    ((TransactionService.withdraw { env with failNotify := b, failNotify2 := b2 } st wid amount d i now).result =
        (TransactionService.withdraw env st wid amount d i now).result ∧
      (TransactionService.withdraw { env with failNotify := b, failNotify2 := b2 } st wid amount d i now).state =
        (TransactionService.withdraw env st wid amount d i now).state ∧
      (TransactionService.withdraw { env with failNotify := b, failNotify2 := b2 } st wid amount d i now).walletCalls =
        (TransactionService.withdraw env st wid amount d i now).walletCalls ∧
      (TransactionService.withdraw { env with failNotify := b, failNotify2 := b2 } st wid amount d i now).notifyAttempted =
        (TransactionService.withdraw env st wid amount d i now).notifyAttempted) ∧
    ((TransactionService.transfer { env with failNotify := b, failNotify2 := b2 } st src dst amount d i now).result =
        (TransactionService.transfer env st src dst amount d i now).result ∧
      (TransactionService.transfer { env with failNotify := b, failNotify2 := b2 } st src dst amount d i now).state =
        (TransactionService.transfer env st src dst amount d i now).state ∧
      (TransactionService.transfer { env with failNotify := b, failNotify2 := b2 } st src dst amount d i now).walletCalls =
        (TransactionService.transfer env st src dst amount d i now).walletCalls ∧
      (TransactionService.transfer { env with failNotify := b, failNotify2 := b2 } st src dst amount d i now).notifyAttempted =
        (TransactionService.transfer env st src dst amount d i now).notifyAttempted) ∧
    ((TransactionService.deposit env st wid amount d i now).notifyAttempted = false ∨
      ∃ t, (TransactionService.deposit env st wid amount d i now).result = .ok t) ∧
    ((TransactionService.withdraw env st wid amount d i now).notifyAttempted = false ∨
      ∃ t, (TransactionService.withdraw env st wid amount d i now).result = .ok t) ∧
    ((TransactionService.transfer env st src dst amount d i now).notifyAttempted = false ∨
      ∃ t, (TransactionService.transfer env st src dst amount d i now).result = .ok t) ∧
    (∀ e, e ∈ (TransactionService.deposit env st wid amount d i now).state.events →
      e.eventType = .notificationSent → e ∈ st.events) ∧
    (∀ e, e ∈ (TransactionService.withdraw env st wid amount d i now).state.events →
      e.eventType = .notificationSent → e ∈ st.events) ∧
    (∀ e, e ∈ (TransactionService.transfer env st src dst amount d i now).state.events →
      e.eventType = .notificationSent → e ∈ st.events) := by
  refine ⟨⟨rfl, rfl, rfl, rfl⟩, ⟨rfl, rfl, rfl, rfl⟩, ⟨rfl, rfl, rfl, rfl⟩,
    ?_, ?_, ?_, ?_, ?_, ?_⟩
  · simp only [TransactionService.deposit]
    rcases h : TransactionService.depositExec env.failGetBalance1 env.failBeginTx
        env.failCreate env.failAddCreated env.failLeg1 env.failUpdateStatus
        env.failAddCompleted env.failCommit st wid amount d i now
      with ⟨r, s2, calls, cm⟩
    unfold TransactionService.depositExec at h
    (repeat' split at h) <;>
      (injection h with h1 h2 h3 h4; subst h1; subst h4) <;>
      first | exact Or.inl rfl | exact Or.inr ⟨_, rfl⟩
  · simp only [TransactionService.withdraw]
    rcases h : TransactionService.withdrawExec env.failGetBalance1 env.failBeginTx
        env.failCreate env.failAddCreated env.failLeg1 env.failUpdateStatus
        env.failAddCompleted env.failCommit st wid amount d i now
      with ⟨r, s2, calls, cm⟩
    unfold TransactionService.withdrawExec at h
    (repeat' split at h) <;>
      (injection h with h1 h2 h3 h4; subst h1; subst h4) <;>
      first | exact Or.inl rfl | exact Or.inr ⟨_, rfl⟩
  · simp only [TransactionService.transfer]
    rcases h : TransactionService.transferExec env.failGetBalance1 env.failGetBalance2
        env.failBeginTx env.failCreate env.failAddCreated env.failLeg1 env.failLeg2
        env.failUpdateStatus env.failAddCompleted env.failCommit st src dst amount d i now
      with ⟨r, s2, calls, cm⟩
    unfold TransactionService.transferExec at h
    (repeat' split at h) <;>
      (injection h with h1 h2 h3 h4; subst h1; subst h4) <;>
      first | exact Or.inl rfl | exact Or.inr ⟨_, rfl⟩
  · intro e
    simp only [TransactionService.deposit]
    rcases h : TransactionService.depositExec env.failGetBalance1 env.failBeginTx
        env.failCreate env.failAddCreated env.failLeg1 env.failUpdateStatus
        env.failAddCompleted env.failCommit st wid amount d i now
      with ⟨r, s2, calls, cm⟩
    unfold TransactionService.depositExec at h
    (repeat' split at h) <;>
      (injection h with h1 h2 h3 h4; subst h2) <;>
      intro he hn <;>
      (try simp only [List.mem_append, List.mem_singleton, List.not_mem_nil, or_false] at he) <;>
      first
        | exact he
        | (rcases he with he | rfl | rfl) <;> first | exact he | simp at hn
        | (rcases he with he | rfl) <;> first | exact he | simp at hn
  · intro e
    simp only [TransactionService.withdraw]
    rcases h : TransactionService.withdrawExec env.failGetBalance1 env.failBeginTx
        env.failCreate env.failAddCreated env.failLeg1 env.failUpdateStatus
        env.failAddCompleted env.failCommit st wid amount d i now
      with ⟨r, s2, calls, cm⟩
    unfold TransactionService.withdrawExec at h
    (repeat' split at h) <;>
      (injection h with h1 h2 h3 h4; subst h2) <;>
      intro he hn <;>
      (try simp only [List.mem_append, List.mem_singleton, List.not_mem_nil, or_false] at he) <;>
      first
        | exact he
        | (rcases he with he | rfl | rfl) <;> first | exact he | simp at hn
        | (rcases he with he | rfl) <;> first | exact he | simp at hn
  · intro e
    simp only [TransactionService.transfer]
    rcases h : TransactionService.transferExec env.failGetBalance1 env.failGetBalance2
        env.failBeginTx env.failCreate env.failAddCreated env.failLeg1 env.failLeg2
        env.failUpdateStatus env.failAddCompleted env.failCommit st src dst amount d i now
      with ⟨r, s2, calls, cm⟩
    unfold TransactionService.transferExec at h
    (repeat' split at h) <;>
      (injection h with h1 h2 h3 h4; subst h2) <;>
      intro he hn <;>
      (try simp only [List.mem_append, List.mem_singleton, List.not_mem_nil, or_false] at he) <;>
      first
        | exact he
        | (rcases he with he | rfl | rfl) <;> first | exact he | simp at hn
        | (rcases he with he | rfl) <;> first | exact he | simp at hn

/-- Witness for the amended C8 at concrete inputs: a successful deposit with
a failing dispatch keeps the same result and state as with a succeeding
dispatch, an attempted dispatch implies success, and the committed log of a
fresh state holds no `notification_sent` event. -/
theorem c8_notification_outside_saga_witness :
    (TransactionService.deposit { okEnv with failNotify := true, failNotify2 := false }
        demoState ("w1") 20 ("d") 1 5).result =
      (TransactionService.deposit okEnv demoState ("w1") 20 ("d") 1 5).result ∧
    (TransactionService.deposit { okEnv with failNotify := true, failNotify2 := false }
        demoState ("w1") 20 ("d") 1 5).state =
      (TransactionService.deposit okEnv demoState ("w1") 20 ("d") 1 5).state ∧
    ((TransactionService.deposit okEnv demoState ("w1") 20 ("d") 1 5).notifyAttempted = false ∨
      ∃ t, (TransactionService.deposit okEnv demoState ("w1") 20 ("d") 1 5).result = .ok t) ∧
    ({ transactionId := 1, eventType := EventType.notificationSent, createdAt := 5 } ∈
        (TransactionService.deposit okEnv demoState ("w1") 20 ("d") 1 5).state.events →
      ({ transactionId := 1, eventType := EventType.notificationSent, createdAt := 5 } : EventRow) ∈
        demoState.events) := by
  have h := c8_notification_outside_saga okEnv demoState ("w1") ("w1") ("w2") 20 ("d") 1 5 true false
  refine ⟨h.1.1, h.1.2.1, h.2.2.2.1, ?_⟩
  have hc := h.2.2.2.2.2.2.1 { transactionId := 1, eventType := EventType.notificationSent, createdAt := 5 }
  intro hm
  exact hc hm rfl

end ClaimC8

section ClaimC6

/-- Counterexample for claim C6 as stated: two transfer runs that are
identical except for the generated transaction id (1 versus 2) issue
exactly the same two wallet-service requests — a nonempty call list — while
their returned transactions carry the two different ids.  If every wallet
leg call passed the transaction id as `opRef`, the two call lists would
differ; the request built by `GRPCWalletClient.UpdateBalance` has no
transaction-id or op-ref field at all. -/
theorem c6_leg_calls_carry_no_transaction_id_counterexample :
    (TransactionService.transfer okEnv demoState ("w1") ("w2") 40 ("t") 1 5).walletCalls =
      (TransactionService.transfer okEnv demoState ("w1") ("w2") 40 ("t") 2 5).walletCalls ∧
    (TransactionService.transfer okEnv demoState ("w1") ("w2") 40 ("t") 1 5).walletCalls =
      [{ walletId := "w1", amount := 40, operation := .debit },
       { walletId := "w2", amount := 40, operation := .credit }] ∧
    (TransactionService.transfer okEnv demoState ("w1") ("w2") 40 ("t") 1 5).result =
      .ok { newTransaction 1 .transfer (some "w1") (some "w2") 40 ("t") 5 with status := .completed } ∧
    (TransactionService.transfer okEnv demoState ("w1") ("w2") 40 ("t") 2 5).result =
      .ok { newTransaction 2 .transfer (some "w1") (some "w2") 40 ("t") 5 with status := .completed } := by
  refine ⟨?_, ?_, ?_, ?_⟩ <;> decide

/-- Claim C6 amended: every wallet-leg request issued by the orchestrator
carries only a wallet id, the transaction amount and a credit/debit
direction — never a transaction id or op-ref (the client interface has no
such parameter): every request of a deposit is the credit of its wallet,
every request of a withdrawal is the debit of its wallet, and every request
of a transfer is the debit of the source or the credit of the destination,
each with the transaction's amount. -/
theorem c6_leg_calls_shape
    (env : FaultEnv) (st : SysState) (wid src dst : String) (amount : Int)
    (d : String) (i now : Nat) :
    (∀ r, r ∈ (TransactionService.deposit env st wid amount d i now).walletCalls →
      r = mkBalanceUpdateRequest wid amount false) ∧
    (∀ r, r ∈ (TransactionService.withdraw env st wid amount d i now).walletCalls →
      r = mkBalanceUpdateRequest wid amount true) ∧
    (∀ r, r ∈ (TransactionService.transfer env st src dst amount d i now).walletCalls →
      r = mkBalanceUpdateRequest src amount true ∨
        r = mkBalanceUpdateRequest dst amount false) := by
  refine ⟨?_, ?_, ?_⟩
  · intro r
    simp only [TransactionService.deposit]
    rcases h : TransactionService.depositExec env.failGetBalance1 env.failBeginTx
        env.failCreate env.failAddCreated env.failLeg1 env.failUpdateStatus
        env.failAddCompleted env.failCommit st wid amount d i now
      with ⟨res, s2, calls, cm⟩
    unfold TransactionService.depositExec at h
    (repeat' split at h) <;>
      (injection h with h1 h2 h3 h4; subst h3) <;>
      intro hr <;>
      simp only [List.mem_cons, List.mem_singleton, List.not_mem_nil, or_false] at hr <;>
      exact hr
  · intro r
    simp only [TransactionService.withdraw]
    rcases h : TransactionService.withdrawExec env.failGetBalance1 env.failBeginTx
        env.failCreate env.failAddCreated env.failLeg1 env.failUpdateStatus
        env.failAddCompleted env.failCommit st wid amount d i now
      with ⟨res, s2, calls, cm⟩
    unfold TransactionService.withdrawExec at h
    (repeat' split at h) <;>
      (injection h with h1 h2 h3 h4; subst h3) <;>
      intro hr <;>
      simp only [List.mem_cons, List.mem_singleton, List.not_mem_nil, or_false] at hr <;>
      exact hr
  · intro r
    simp only [TransactionService.transfer]
    rcases h : TransactionService.transferExec env.failGetBalance1 env.failGetBalance2
        env.failBeginTx env.failCreate env.failAddCreated env.failLeg1 env.failLeg2
        env.failUpdateStatus env.failAddCompleted env.failCommit st src dst amount d i now
      with ⟨res, s2, calls, cm⟩
    unfold TransactionService.transferExec at h
    (repeat' split at h) <;>
      (injection h with h1 h2 h3 h4; subst h3) <;>
      intro hr <;>
      simp only [List.mem_cons, List.mem_singleton, List.not_mem_nil, or_false] at hr <;>
      first
        | exact hr.elim (fun hh => Or.inl hh) (fun hh => Or.inr hh)
        | exact Or.inl hr

/-- Witness for the amended C6: the two legs of a concrete transfer. -/
theorem c6_leg_calls_shape_witness :
    ({ walletId := "w1", amount := 40, operation := .debit } : BalanceUpdateRequest) ∈
        (TransactionService.transfer okEnv demoState ("w1") ("w2") 40 ("t") 1 5).walletCalls →
      ({ walletId := "w1", amount := 40, operation := .debit } : BalanceUpdateRequest) =
          mkBalanceUpdateRequest ("w1") 40 true ∨
        ({ walletId := "w1", amount := 40, operation := .debit } : BalanceUpdateRequest) =
          mkBalanceUpdateRequest ("w2") 40 false := by
  exact (c6_leg_calls_shape okEnv demoState ("w1") ("w1") ("w2") 40 ("t") 1 5).2.2
    { walletId := "w1", amount := 40, operation := .debit }

end ClaimC6

section ClaimC7

/-- Counterexample for claim C7 as stated: the claim's allow-list is
`{created_at, amount, type, status}`, but the repository's `validFields`
map uses the column name `transaction_type`, not `type`.  Sorting by
`"type"` — a member of the claim's list — falls back to `created_at`, and
sorting by `"transaction_type"` — not in the claim's list — is honored. -/
theorem c7_sort_allow_list_counterexample :
    ("type" : String) ∈ (["created_at", "amount", "type", "status"] : List String) ∧
    (getTransactionsForWalletPlan
        { page := 1, limit := 10, sortBy := "type", sortAscending := true } 0).sortField =
      "created_at" ∧
    ("type" : String) ≠ "created_at" ∧
    ("transaction_type" : String) ∉ (["created_at", "amount", "type", "status"] : List String) ∧
    (getTransactionsForWalletPlan
        { page := 1, limit := 10, sortBy := "transaction_type", sortAscending := true } 0).sortField =
      "transaction_type" := by
  refine ⟨?_, ?_, ?_, ?_, ?_⟩ <;> decide

/-- Claim C7 amended: for every `GetTransactionHistory` request, a page
below 1 defaults to 1 (and is otherwise kept), a limit below 1 defaults to
the positive value 10 (and is otherwise kept), `total_pages` is the ceiling
of `total_count / limit` — it is 0 for an empty result set and otherwise the
unique value with `(total_pages - 1) * limit < total_count ≤ total_pages *
limit` — and the sort column is taken from the request's `sort_by` exactly
when it belongs to the fixed allow-list `{created_at, amount,
transaction_type, status}`; any other `sort_by` value (including the spec's
`type`) sorts by `created_at`. -/
theorem c7_history_pagination_and_sort (filter : TransactionFilter) (totalCount : Nat) :
    (filter.page < 1 → (getTransactionsForWalletPlan filter totalCount).page = 1) ∧
    (¬ filter.page < 1 → (getTransactionsForWalletPlan filter totalCount).page = filter.page) ∧
    1 ≤ (getTransactionsForWalletPlan filter totalCount).page ∧
    (filter.limit < 1 → (getTransactionsForWalletPlan filter totalCount).limit = 10) ∧
    (¬ filter.limit < 1 → (getTransactionsForWalletPlan filter totalCount).limit = filter.limit) ∧
    1 ≤ (getTransactionsForWalletPlan filter totalCount).limit ∧
    (totalCount = 0 → (getTransactionsForWalletPlan filter totalCount).totalPages = 0) ∧
    (0 < totalCount →
      ((getTransactionsForWalletPlan filter totalCount).totalPages - 1) *
          (getTransactionsForWalletPlan filter totalCount).limit < (totalCount : Int) ∧
        (totalCount : Int) ≤ (getTransactionsForWalletPlan filter totalCount).totalPages *
          (getTransactionsForWalletPlan filter totalCount).limit) ∧
    (filter.sortBy ∈ validSortFields →
      (getTransactionsForWalletPlan filter totalCount).sortField = filter.sortBy) ∧
    (filter.sortBy ∉ validSortFields →
      (getTransactionsForWalletPlan filter totalCount).sortField = "created_at") := by
  have hL : (1 : Int) ≤ (if filter.limit < 1 then 10 else filter.limit) := by
    split <;> omega
  refine ⟨?_, ?_, ?_, ?_, ?_, ?_, ?_, ?_, ?_, ?_⟩
  · intro h
    simp [getTransactionsForWalletPlan, if_pos h]
  · intro h
    simp [getTransactionsForWalletPlan, if_neg h]
  · simp only [getTransactionsForWalletPlan]
    split <;> omega
  · intro h
    simp [getTransactionsForWalletPlan, if_pos h]
  · intro h
    simp [getTransactionsForWalletPlan, if_neg h]
  · simp only [getTransactionsForWalletPlan]
    exact hL
  · intro h
    subst h
    simp only [getTransactionsForWalletPlan, Nat.cast_zero]
    rw [Int.ediv_eq_zero_of_lt (by omega) (by omega)]
  · intro h
    simp only [getTransactionsForWalletPlan]
    have hne : (if filter.limit < 1 then (10 : Int) else filter.limit) ≠ 0 := by omega
    have hpos : (0 : Int) < (if filter.limit < 1 then 10 else filter.limit) := by omega
    have h1 := Int.ediv_mul_le
      ((totalCount : Int) + (if filter.limit < 1 then 10 else filter.limit) - 1) hne
    have h2 := Int.lt_ediv_add_one_mul_self
      ((totalCount : Int) + (if filter.limit < 1 then 10 else filter.limit) - 1) hpos
    have e1 : (((totalCount : Int) + (if filter.limit < 1 then 10 else filter.limit) - 1) /
          (if filter.limit < 1 then 10 else filter.limit) - 1) *
          (if filter.limit < 1 then 10 else filter.limit) =
        ((totalCount : Int) + (if filter.limit < 1 then 10 else filter.limit) - 1) /
          (if filter.limit < 1 then 10 else filter.limit) *
          (if filter.limit < 1 then 10 else filter.limit) -
          (if filter.limit < 1 then 10 else filter.limit) := by ring
    have e2 : (((totalCount : Int) + (if filter.limit < 1 then 10 else filter.limit) - 1) /
          (if filter.limit < 1 then 10 else filter.limit) + 1) *
          (if filter.limit < 1 then 10 else filter.limit) =
        ((totalCount : Int) + (if filter.limit < 1 then 10 else filter.limit) - 1) /
          (if filter.limit < 1 then 10 else filter.limit) *
          (if filter.limit < 1 then 10 else filter.limit) +
          (if filter.limit < 1 then 10 else filter.limit) := by ring
    rw [e2] at h2
    constructor
    · rw [e1]
      omega
    · omega
  · intro h
    have hne : filter.sortBy ≠ "" := by
      intro he
      rw [he] at h
      simp [validSortFields] at h
    simp [getTransactionsForWalletPlan, hne, h]
  · intro h
    by_cases he : filter.sortBy = ""
    · simp [getTransactionsForWalletPlan, he]
    · simp [getTransactionsForWalletPlan, he, h]

/-- Witness for the amended C7 at concrete inputs: page 0 defaults to 1,
limit 0 defaults to 10, 25 rows at limit 10 give the ceiling bounds, and
`transaction_type` is honored while `type` is not. -/
theorem c7_history_pagination_and_sort_witness :
    (getTransactionsForWalletPlan
        { page := 0, limit := 0, sortBy := "type", sortAscending := false } 25).page = 1 ∧
    (getTransactionsForWalletPlan
        { page := 0, limit := 0, sortBy := "type", sortAscending := false } 25).limit = 10 ∧
    ((getTransactionsForWalletPlan
        { page := 0, limit := 0, sortBy := "type", sortAscending := false } 25).totalPages - 1) *
        (getTransactionsForWalletPlan
          { page := 0, limit := 0, sortBy := "type", sortAscending := false } 25).limit <
      (25 : Int) ∧
    (25 : Int) ≤ (getTransactionsForWalletPlan
        { page := 0, limit := 0, sortBy := "type", sortAscending := false } 25).totalPages *
        (getTransactionsForWalletPlan
          { page := 0, limit := 0, sortBy := "type", sortAscending := false } 25).limit ∧
    (getTransactionsForWalletPlan
        { page := 0, limit := 0, sortBy := "type", sortAscending := false } 25).sortField =
      "created_at" ∧
    (getTransactionsForWalletPlan
        { page := 3, limit := 7, sortBy := "transaction_type", sortAscending := true } 25).sortField =
      "transaction_type" := by
  have h := c7_history_pagination_and_sort
    { page := 0, limit := 0, sortBy := "type", sortAscending := false } 25
  have h2 := c7_history_pagination_and_sort
    { page := 3, limit := 7, sortBy := "transaction_type", sortAscending := true } 25
  refine ⟨h.1 (by decide), h.2.2.2.1 (by decide), (h.2.2.2.2.2.2.2.1 (by decide)).1,
    (h.2.2.2.2.2.2.2.1 (by decide)).2, h.2.2.2.2.2.2.2.2.2 (by decide),
    h2.2.2.2.2.2.2.2.2.1 (by decide)⟩

end ClaimC7
